import Mathlib

/-!
Verification of the job-lifecycle and queue pipeline of project_obsidian.

The definitions below are a shallow embedding of the Go sources:
entity types from internal/domain/entity, the PostgreSQL job repository
(internal/infrastructure/database/job_repository.go), the Redis queue
repository (internal/infrastructure/database/queue_repository.go), the
queue service and worker (package queue), and the stage handlers
(internal/usecase). Machine integers are modelled as Int, timestamps as a
logical Nat clock, and database or broker failures are injected through
explicit outcome parameters where a property depends on them.
-/

namespace Obsidian

/-- Status enum of entity.JobStatus: the eight string constants declared in
the entity package. -/
inductive JobStatus where
  | created
  | processing
  | transcribed
  | summarized
  | completed
  | failed
  | queued
  | pending
deriving DecidableEq, Repr

/-- Job type tags of entity.JobType: the seven string constants declared in
the entity package. -/
inductive JobType where
  | transcription
  | transcriptionWithTimestamps
  | summarization
  | summarizationWithBullets
  | notionSync
  | notion
  | notificationJob
deriving DecidableEq, Repr

/-- The underlying string of each entity.JobType constant; PushJob uses it
as the queue name (queueName := string(job.JobType)). -/
def jobTypeName : JobType → String
  | .transcription => "transcription"
  | .transcriptionWithTimestamps => "transcription_with_timestamps"
  | .summarization => "summarization"
  | .summarizationWithBullets => "summarization_with_bullets"
  | .notionSync => "notion_sync"
  | .notion => "notion"
  | .notificationJob => "notification"

/-- DefaultQueueName from the queue package: the single queue the worker
loop drains. -/
def DefaultQueueName : String := "default"

/-- A persisted job row. Fields follow the columns written by the job
repository (user_id, status, audio_file_path, transcription, summary,
notion_page_id, notion_database_id, created_at, updated_at, completed_at,
error_message). The Go entity also carries Type, FileName and Duration,
but the repository INSERT and UPDATE statements never persist them and no
claim concerns them. -/
structure Job where
  id : Int
  userID : Int
  status : JobStatus
  audioFilePath : String
  transcription : String
  summary : String
  notionPageID : String
  notionDatabaseID : String
  createdAt : Nat
  updatedAt : Nat
  completedAt : Option Nat
  errorMessage : String
deriving DecidableEq, Repr

/-- The job store is the list of persisted rows. -/
abbrev JobStore := List Job

namespace JobRepo

/-- Create (job_repository.go): sets created_at and updated_at to now,
forces status to pending, lets the database assign the id, and inserts the
remaining columns, completed_at and error_message included, exactly as
they stand on the passed entity. -/
def create (s : JobStore) (now : Nat) (job : Job) : JobStore × Job :=
  let assigned : Int := Int.ofNat (s.length + 1)
  let j : Job :=
    { job with id := assigned, createdAt := now, updatedAt := now,
               status := JobStatus.pending }
  (s ++ [j], j)

/-- UpdateStatus (job_repository.go): unconditionally overwrites status,
updated_at, completed_at and error_message of the matching row; completed_at
becomes now exactly when the new status is completed or failed, and NULL
otherwise. -/
def updateStatus (s : JobStore) (now : Nat) (id : Int) (status : JobStatus)
    (errorMessage : String) : JobStore :=
  s.map fun j =>
    if j.id = id then
      { j with status := status, updatedAt := now,
               completedAt :=
                 if status = JobStatus.completed ∨ status = JobStatus.failed
                 then some now else none,
               errorMessage := errorMessage }
    else j

/-- SetTranscription (job_repository.go): updates only the transcription
column and updated_at. -/
def setTranscription (s : JobStore) (now : Nat) (id : Int) (text : String) :
    JobStore :=
  s.map fun j =>
    if j.id = id then { j with transcription := text, updatedAt := now } else j

/-- SetSummary (job_repository.go): updates only the summary column and
updated_at. -/
def setSummary (s : JobStore) (now : Nat) (id : Int) (text : String) :
    JobStore :=
  s.map fun j =>
    if j.id = id then { j with summary := text, updatedAt := now } else j

/-- SetNotionIDs (job_repository.go): updates only notion_page_id,
notion_database_id and updated_at. -/
def setNotionIDs (s : JobStore) (now : Nat) (id : Int) (pageID dbID : String) :
    JobStore :=
  s.map fun j =>
    if j.id = id then
      { j with notionPageID := pageID, notionDatabaseID := dbID,
               updatedAt := now }
    else j

end JobRepo

/-- One invocation of a job store operation, for reasoning about arbitrary
sequences of store calls. -/
inductive StoreOp where
  | create (job : Job)
  | updateStatus (id : Int) (status : JobStatus) (errorMessage : String)
  | setTranscription (id : Int) (text : String)
  | setSummary (id : Int) (text : String)
  | setNotionIDs (id : Int) (pageID dbID : String)

/-- Run one store operation at the given clock value. -/
def applyOp (now : Nat) (s : JobStore) : StoreOp → JobStore
  | .create job => (JobRepo.create s now job).1
  | .updateStatus id status msg => JobRepo.updateStatus s now id status msg
  | .setTranscription id text => JobRepo.setTranscription s now id text
  | .setSummary id text => JobRepo.setSummary s now id text
  | .setNotionIDs id pageID dbID => JobRepo.setNotionIDs s now id pageID dbID

/-- Run a sequence of store operations, advancing the clock between calls. -/
def applyOps (s : JobStore) (now : Nat) : List StoreOp → JobStore
  | [] => s
  | op :: rest => applyOps (applyOp now s op) (now + 1) rest

/-- One row satisfies the completed_at invariant of the spec: completed_at
is non-null exactly when the status is completed or failed. -/
def jobCompletedAtOk (j : Job) : Bool :=
  j.completedAt.isSome ==
    (j.status == JobStatus.completed || j.status == JobStatus.failed)

/-- Whole-store completed_at invariant. -/
def completedAtInvariant (s : JobStore) : Bool := s.all jobCompletedAtOk

/-- A Go dynamic value (interface value), as carried by the untyped Payload
field of entity.QueueJob. Numbers in this program are integral, so both the
int64 and the float64 representations carry an Int; the tag records the Go
dynamic type, which is what the type assertions in the handlers test. vnil
is the nil interface value a Go map lookup yields for a missing key. -/
inductive GoVal where
  | vnil
  | vstr (s : String)
  | vint64 (n : Int)
  | vfloat64 (n : Int)
  | vmap (entries : List (String × GoVal))

mutual

/-- Effect of encoding a dynamic value with encoding/json and decoding it
back into interface values: strings stay strings, every number decodes as
float64, and maps decode entrywise. -/
def goJsonRoundTrip : GoVal → GoVal
  | .vnil => .vnil
  | .vstr s => .vstr s
  | .vint64 n => .vfloat64 n
  | .vfloat64 n => .vfloat64 n
  | .vmap es => .vmap (goJsonRoundTripEntries es)

/-- Entrywise JSON round trip of a decoded map. -/
def goJsonRoundTripEntries : List (String × GoVal) → List (String × GoVal)
  | [] => []
  | (k, v) :: rest => (k, goJsonRoundTrip v) :: goJsonRoundTripEntries rest

end

/-- The comma-ok type assertion v.(string). -/
def assertString : GoVal → Option String
  | .vstr s => some s
  | _ => none

/-- The comma-ok type assertion v.(int64): it succeeds only on a value whose
dynamic type is exactly int64, so it fails on a float64. -/
def assertInt64 : GoVal → Option Int
  | .vint64 n => some n
  | _ => none

/-- The comma-ok type assertion v.(map[string]interface value). -/
def assertMap : GoVal → Option (List (String × GoVal))
  | .vmap es => some es
  | _ => none

/-- Go map indexing m[k] on a decoded map: the nil interface value when the
key is absent. -/
def mapLookup : List (String × GoVal) → String → GoVal
  | [], _ => .vnil
  | (k1, v) :: rest, k => if k1 = k then v else mapLookup rest k

/-- entity.QueueJob: the ephemeral unit of work serialized through Redis.
The typed fields ID, JobID, UserID (int64), JobType (string) and CreatedAt
survive a JSON round trip unchanged; Payload has Go type any. -/
structure QueueJob where
  id : Int
  jobID : Int
  userID : Int
  jobType : JobType
  createdAt : Nat
  payload : GoVal

/-- Named Redis lists: queue name to list of stored items, head first. -/
abbrev Queues := String → List QueueJob

/-- Queues with every list empty. -/
def emptyQueues : Queues := fun _ => []

/-- Marshal then Unmarshal of a stored QueueJob, as performed between Push
and Pop: the typed fields decode exactly, the Payload field decodes as
generic interface values. -/
def decodeStored (job : QueueJob) : QueueJob :=
  { job with payload := goJsonRoundTrip job.payload }

namespace QueueRepo

/-- Push (queue_repository.go): stamps CreatedAt with now, marshals the job
and RPushes it to the tail of the named list. Marshalling of these values
cannot fail; broker transport failures are outside the model. -/
def push (qs : Queues) (now : Nat) (queueName : String) (job : QueueJob) :
    Queues :=
  fun n => if n = queueName then qs n ++ [{ job with createdAt := now }]
           else qs n

/-- Pop (queue_repository.go): BLPop with a one second timeout takes the
head of the named list; redis.Nil, the signal that the timeout elapsed on
an empty queue, is mapped to (nil, nil) and is not an error. The popped
item is unmarshalled from JSON. -/
def pop (qs : Queues) (queueName : String) :
    Except String (Option QueueJob) × Queues :=
  match qs queueName with
  | [] => (Except.ok none, qs)
  | j :: rest =>
    (Except.ok (some (decodeStored j)),
     fun n => if n = queueName then rest else qs n)

/-- Size (queue_repository.go): LLen of the named list. -/
def size (qs : Queues) (queueName : String) : Int :=
  Int.ofNat (qs queueName).length

end QueueRepo

/-- Injected outcome of a fallible database write, used to model the
UPDATE statements the queue service issues against PostgreSQL, and the
Redis transport outcome of a Push. -/
inductive DbResult where
  | ok
  | fail (msg : String)

/-- Combined state of the two stores the queue service mediates between. -/
structure SysState where
  queues : Queues
  store : JobStore

namespace QueueService

/-- PushJob (queue package): the queue name is string(job.JobType); Push the
job there, then UpdateStatus(job.JobID, queued, ""). pushOutcome injects the
Redis transport result of the Push, updOutcome the result of the status
UPDATE; on a failed Push nothing is written, on a failed UPDATE the pushed
item stays in the queue and the error is returned. -/
def pushJob (st : SysState) (now : Nat) (pushOutcome updOutcome : DbResult)
    (job : QueueJob) : Except String Unit × SysState :=
  let queueName := jobTypeName job.jobType
  match pushOutcome with
  | .fail msg => (Except.error ("failed to push job to queue: " ++ msg), st)
  | .ok =>
    let qs := QueueRepo.push st.queues now queueName job
    match updOutcome with
    | .fail msg =>
      (Except.error ("failed to update job status: " ++ msg),
       { st with queues := qs })
    | .ok =>
      (Except.ok (),
       { queues := qs,
         store := JobRepo.updateStatus st.store now job.jobID
                    JobStatus.queued "" })

/-- PopJob (queue package): Pop from the named queue; an empty queue yields
(nil, nil); on an item, UpdateStatus(job.JobID, processing, "") — and when
that UPDATE fails the Go code returns BOTH the popped job and the error
(return job, err), leaving the store untouched and the item removed from
the queue. -/
def popJob (st : SysState) (now : Nat) (updOutcome : DbResult)
    (queueName : String) : Option QueueJob × Option String × SysState :=
  match QueueRepo.pop st.queues queueName with
  | (Except.error e, qs) =>
    (none, some ("failed to pop job from queue: " ++ e), { st with queues := qs })
  | (Except.ok none, qs) => (none, none, { st with queues := qs })
  | (Except.ok (some job), qs) =>
    match updOutcome with
    | .fail msg =>
      (some job, some ("failed to update job status: " ++ msg),
       { st with queues := qs })
    | .ok =>
      (some job, none,
       { queues := qs,
         store := JobRepo.updateStatus st.store now job.jobID
                    JobStatus.processing "" })

/-- EnqueueTranscriptionJob (queue package): builds a transcription
QueueJob whose Payload is the bare audio file path string, and PushJobs
it. -/
def enqueueTranscriptionJob (st : SysState) (now : Nat)
    (pushOutcome updOutcome : DbResult) (jobID userID : Int)
    (audioFilePath : String) : Except String Unit × SysState :=
  let job : QueueJob :=
    { id := 0, jobID := jobID, userID := userID,
      jobType := JobType.transcription, createdAt := now,
      payload := GoVal.vstr audioFilePath }
  pushJob st now pushOutcome updOutcome job

end QueueService

/-- A registered stage handler: it receives the popped queue job and may
read and write both stores, returning nil or an error. -/
abbrev Handler := QueueJob → SysState → Except String Unit × SysState

/-- The handler registry of the worker, keyed by job type. -/
abbrev Handlers := JobType → Option Handler

/-- processJob (queue package): look up the handler for the job type; when
none is registered, log and drop the item; otherwise invoke the handler and,
whatever it returns, keep exactly the state the handler produced — the
worker adds no store write of its own on either path. -/
def processJob (handlers : Handlers) (job : QueueJob) (st : SysState) :
    SysState :=
  match handlers job.jobType with
  | none => st
  | some h => (h job st).2

/-- The channels the select statement of Worker.Start observes at the top of
an iteration: context cancellation, the shutdown channel, or neither. -/
inductive LoopSignal where
  | cancelled
  | shutdown
  | running

/-- Inputs of one worker iteration: the observed signal, the injected
outcome of the processing-status UPDATE inside PopJob, and the clock. -/
structure IterEnv where
  sig : LoopSignal
  updOutcome : DbResult
  now : Nat

/-- Result of one iteration of Worker.Start: either the loop returned, or it
continues with a new state; popEvent records the queue name the iteration
popped from together with the item removed from it, if any. -/
inductive IterResult where
  | stopped
  | continued (st : SysState) (popEvent : String × Option QueueJob)

/-- The state a continued iteration carries, none when the loop stopped. -/
def iterState : IterResult → Option SysState
  | .stopped => none
  | .continued st _ => some st

/-- The pop event of a continued iteration. -/
def iterPop : IterResult → Option (String × Option QueueJob)
  | .stopped => none
  | .continued _ ev => some ev

/-- One iteration of the Worker.Start loop: the select returns on
ctx.Done or the shutdown channel; otherwise PopJob(ctx, DefaultQueueName).
On a pop error the Go code logs, sleeps and continues — discarding whatever
job was returned alongside the error; on a nil job it sleeps and continues;
on a job it runs processJob and continues. -/
def workerIter (handlers : Handlers) (env : IterEnv) (st : SysState) :
    IterResult :=
  match env.sig with
  | .cancelled => .stopped
  | .shutdown => .stopped
  | .running =>
    match QueueService.popJob st env.now env.updOutcome DefaultQueueName with
    | (jobOpt, some _, st1) => .continued st1 (DefaultQueueName, jobOpt)
    | (none, none, st1) => .continued st1 (DefaultQueueName, none)
    | (some job, none, st1) =>
      .continued (processJob handlers job st1) (DefaultQueueName, some job)

/-- Run the worker loop for a list of iteration inputs, stopping early when
an iteration returns; the second component is the trace of pop events the
loop performed. -/
def workerRun (handlers : Handlers) :
    List IterEnv → SysState → SysState × List (String × Option QueueJob)
  | [], st => (st, [])
  | env :: rest, st =>
    match workerIter handlers env st with
    | .stopped => (st, [])
    | .continued st1 ev =>
      let r := workerRun handlers rest st1
      (r.1, ev :: r.2)

/-- entity.User, with the integration credential fields the note-sync stage
reads. -/
structure User where
  id : Int
  telegramID : Int
  username : String
  notionToken : String
  notionDatabaseID : String
deriving DecidableEq, Repr

/-- A Go-level failure: an ordinary returned error, or a runtime panic
(a failed unchecked type assertion or a nil pointer dereference). -/
inductive GoErr where
  | err (msg : String)
  | panicked (msg : String)

/-- External collaborators of the transcription handler. ProcessAudio
receives the audio path (the Go code also passes filepath.Base of it as a
display name; that stdlib detail is absorbed into the oracle) and returns
the transcoded path; Transcribe returns the recognised text.
SendProgressUpdate and SendMessage, whose errors the handler ignores, touch
neither store and are omitted. -/
structure TranscriptionEnv where
  processAudio : String → Except String String
  transcribe : String → Except String String

/-- Result of one transcription handler invocation. -/
structure TranscriptionRun where
  result : Except GoErr Unit
  state : SysState

/-- ProcessTranscription (TranscriptionProcessingUseCase): asserts the
payload to map[string] of interface values, reads "audio_path" as a string,
transcodes and transcribes via the collaborators, persists the text with
SetTranscription, reads "user_id" from the payload with an int64 comma-ok
assertion (defaulting to 0), builds the summarization QueueJob — whose
UserID field the struct literal leaves unset, hence 0 — PushJobs it, and
finally sets the status to transcribed. The SetTranscription and final
UpdateStatus writes are modelled as succeeding; pushOutcome and updOutcome
feed the inner PushJob. -/
def processTranscription (env : TranscriptionEnv) (now : Nat)
    (pushOutcome updOutcome : DbResult) (st : SysState) (job : QueueJob) :
    TranscriptionRun :=
  match assertMap job.payload with
  | none => { result := .error (.err "invalid payload type in job"), state := st }
  | some payload =>
    match assertString (mapLookup payload "audio_path") with
    | none =>
      { result := .error
          (.err "audio_path not found in job payload or has invalid type"),
        state := st }
    | some audioPath =>
      match env.processAudio audioPath with
      | .error e =>
        { result := .error
            (.err ("failed to process audio for transcription: " ++ e)),
          state := st }
      | .ok processedAudioPath =>
        match env.transcribe processedAudioPath with
        | .error e =>
          { result := .error (.err ("failed to transcribe audio: " ++ e)),
            state := st }
        | .ok transcription =>
          let st1 : SysState :=
            { st with store := JobRepo.setTranscription st.store now job.jobID
                                 transcription }
          let userID : Int :=
            (assertInt64 (mapLookup payload "user_id")).getD 0
          let summarizationJob : QueueJob :=
            { id := 0, jobID := job.jobID, userID := 0,
              jobType := JobType.summarization, createdAt := 0,
              payload := GoVal.vmap
                [("transcription", GoVal.vstr transcription),
                 ("user_id", GoVal.vint64 userID)] }
          match QueueService.pushJob st1 now pushOutcome updOutcome
              summarizationJob with
          | (Except.error e, st2) =>
            { result := .error
                (.err ("failed to push summarization job to queue: " ++ e)),
              state := st2 }
          | (Except.ok _, st2) =>
            { result := .ok (),
              state := { st2 with
                store := JobRepo.updateStatus st2.store now job.jobID
                           JobStatus.transcribed "" } }

/-- Result of one note-sync handler invocation: the returned value, the
resulting store, whether the external CreatePage collaborator was called,
and the user id passed to the user lookup, when one was performed. -/
structure NotionRun where
  result : Except GoErr Unit
  store : JobStore
  createPageCalled : Bool
  userLookup : Option Int

/-- ProcessNotionIntegration (NotionProcessingUseCase): asserts the payload
to a map with an UNCHECKED assertion (a non-map payload panics), reads
"transcription" and "summary" as strings, looks the user up by job.UserID,
and when the user has an empty NotionToken or an empty NotionDatabaseID
short-circuits to UpdateStatus(completed) without calling CreatePage;
otherwise CreatePage, SetNotionIDs, UpdateStatus(completed). getUser models
GetByTelegramID (a found user, a nil user, or an error); createPage models
the Notion collaborator, receiving the database id, the generated page
title and the assembled content. Store writes are modelled as succeeding. -/
def processNotionIntegration (getUser : Int → Except String (Option User))
    (createPage : String → String → String → Except String String)
    (now : Nat) (store : JobStore) (job : QueueJob) : NotionRun :=
  match assertMap job.payload with
  | none =>
    { result := .error (.panicked "interface conversion"), store := store,
      createPageCalled := false, userLookup := none }
  | some payload =>
    match assertString (mapLookup payload "transcription") with
    | none =>
      { result := .error
          (.err "transcription not found in job payload or has invalid type"),
        store := store, createPageCalled := false, userLookup := none }
    | some transcription =>
      match assertString (mapLookup payload "summary") with
      | none =>
        { result := .error
            (.err "summary not found in job payload or has invalid type"),
          store := store, createPageCalled := false, userLookup := none }
      | some summary =>
        match getUser job.userID with
        | .error e =>
          { result := .error (.err ("failed to get user: " ++ e)),
            store := store, createPageCalled := false,
            userLookup := some job.userID }
        | .ok none =>
          { result := .error (.panicked "nil pointer dereference"),
            store := store, createPageCalled := false,
            userLookup := some job.userID }
        | .ok (some user) =>
          if user.notionToken = "" ∨ user.notionDatabaseID = "" then
            { result := .ok (),
              store := JobRepo.updateStatus store now job.jobID
                         JobStatus.completed "",
              createPageCalled := false, userLookup := some job.userID }
          else
            let pageTitle := "Транскрипция от " ++ toString now
            let content :=
              "## Суммаризация\n\n" ++ summary ++
              "\n\n## Полная транскрипция\n\n" ++ transcription
            match createPage user.notionDatabaseID pageTitle content with
            | .error e =>
              { result := .error (.err ("failed to create Notion page: " ++ e)),
                store := store, createPageCalled := true,
                userLookup := some job.userID }
            | .ok pageID =>
              let store1 := JobRepo.setNotionIDs store now job.jobID pageID
                              user.notionDatabaseID
              { result := .ok (),
                store := JobRepo.updateStatus store1 now job.jobID
                           JobStatus.completed "",
                createPageCalled := true, userLookup := some job.userID }

/-- Push a list of queue jobs onto one named queue, in list order. -/
def pushAll (qs : Queues) (now : Nat) (queueName : String) :
    List QueueJob → Queues
  | [] => qs
  | j :: rest => pushAll (QueueRepo.push qs now queueName j) now queueName rest

/-- Pop the named queue n times, collecting the returned jobs in order and
stopping at the first empty pop. -/
def popAll (qs : Queues) (queueName : String) : Nat → List QueueJob × Queues
  | 0 => ([], qs)
  | n + 1 =>
    match QueueRepo.pop qs queueName with
    | (Except.ok (some j), qs1) =>
      let r := popAll qs1 queueName n
      (j :: r.1, r.2)
    | (_, qs1) => ([], qs1)

/-- Stamping applied by Push before an item is stored. -/
def stampAt (now : Nat) (j : QueueJob) : QueueJob := { j with createdAt := now }

lemma push_lookup_self (qs : Queues) (now : Nat) (name : String)
    (j : QueueJob) :
    QueueRepo.push qs now name j name = qs name ++ [stampAt now j] := by
  simp [QueueRepo.push, stampAt]

lemma push_lookup_other (qs : Queues) (now : Nat) (name n : String)
    (j : QueueJob) (h : n ≠ name) :
    QueueRepo.push qs now name j n = qs n := by
  simp [QueueRepo.push, h]

lemma pushAll_lookup (now : Nat) (name : String) :
    ∀ (jobs : List QueueJob) (qs : Queues),
      pushAll qs now name jobs name = qs name ++ jobs.map (stampAt now)
  | [], qs => by simp [pushAll]
  | j :: rest, qs => by
    rw [pushAll, pushAll_lookup now name rest, push_lookup_self]
    simp

lemma popAll_of_content (name : String) :
    ∀ (l : List QueueJob) (qs : Queues), qs name = l →
      (popAll qs name l.length).1 = l.map decodeStored
  | [], qs, h => by simp [popAll]
  | j :: rest, qs, h => by
    have hpop : QueueRepo.pop qs name =
        (Except.ok (some (decodeStored j)),
         fun n => if n = name then rest else qs n) := by
      rw [QueueRepo.pop, h]
    have hrest : (fun n => if n = name then rest else qs n) name = rest := by
      simp
    rw [List.length_cons, popAll, hpop]
    simp only [List.map_cons, List.cons.injEq, true_and]
    exact popAll_of_content name rest _ hrest

/-- C8: for every list of queue jobs pushed to one named queue starting from
empty queues, popping that many times returns the items in push order: the
result is exactly the pushed list, each element stamped by Push and decoded
from its JSON serialization by Pop (FIFO). -/
theorem pushN_popN_fifo (jobs : List QueueJob) (now : Nat) (name : String) :
    (popAll (pushAll emptyQueues now name jobs) name jobs.length).1
      = jobs.map (fun j => decodeStored (stampAt now j)) := by
  have hcontent : pushAll emptyQueues now name jobs name
      = jobs.map (stampAt now) := by
    rw [pushAll_lookup]
    simp [emptyQueues]
  have hlen : jobs.length = (jobs.map (stampAt now)).length := by simp
  rw [hlen, popAll_of_content name (jobs.map (stampAt now)) _ hcontent,
    List.map_map]
  rfl

/-- C9: popping an empty named queue is not an error: in any state whose
named list is empty, Pop returns ok nil once the timeout elapses, and PopJob
likewise returns no job and no error, leaving the job store untouched. -/
theorem pop_empty_queue_no_error (qs : Queues) (store : JobStore)
    (now : Nat) (updOutcome : DbResult) (name : String)
    (h : qs name = []) :
    (QueueRepo.pop qs name).1 = Except.ok none ∧
    (QueueService.popJob { queues := qs, store := store } now updOutcome
        name).1 = none ∧
    (QueueService.popJob { queues := qs, store := store } now updOutcome
        name).2.1 = none ∧
    (QueueService.popJob { queues := qs, store := store } now updOutcome
        name).2.2.store = store := by
  have hpop : QueueRepo.pop qs name = (Except.ok none, qs) := by
    rw [QueueRepo.pop, h]
  refine ⟨by rw [hpop], ?_, ?_, ?_⟩ <;>
    simp [QueueService.popJob, hpop]

/-- Witness for C9 at a concrete empty state. -/
theorem pop_empty_queue_no_error_witness :
    (QueueRepo.pop emptyQueues "default").1 = Except.ok none ∧
    (QueueService.popJob { queues := emptyQueues, store := [] } 0 DbResult.ok
        "default").1 = none ∧
    (QueueService.popJob { queues := emptyQueues, store := [] } 0 DbResult.ok
        "default").2.1 = none ∧
    (QueueService.popJob { queues := emptyQueues, store := [] } 0 DbResult.ok
        "default").2.2.store = ([] : JobStore) :=
  pop_empty_queue_no_error emptyQueues [] 0 DbResult.ok "default" rfl

lemma jobTypeName_ne_default (jt : JobType) :
    DefaultQueueName ≠ jobTypeName jt := by
  cases jt <;> decide

/-- C5: when the Push into the work queue succeeds but the subsequent
UPDATE of the owning job to queued fails, PushJob surfaces the error to the
caller while the pushed item remains appended at the tail of the named
queue and the job store is left untouched — no rollback across the two
stores. -/
theorem pushJob_not_atomic_on_update_failure (st : SysState) (now : Nat)
    (msg : String) (job : QueueJob) :
    (QueueService.pushJob st now DbResult.ok (DbResult.fail msg) job).1
      = Except.error ("failed to update job status: " ++ msg) ∧
    (QueueService.pushJob st now DbResult.ok (DbResult.fail msg) job).2.queues
        (jobTypeName job.jobType)
      = st.queues (jobTypeName job.jobType) ++ [stampAt now job] ∧
    (QueueService.pushJob st now DbResult.ok (DbResult.fail msg) job).2.store
      = st.store := by
  refine ⟨rfl, ?_, rfl⟩
  simp [QueueService.pushJob, push_lookup_self]

lemma workerIter_pop_default (handlers : Handlers) (env : IterEnv)
    (st st1 : SysState) (ev : String × Option QueueJob)
    (h : workerIter handlers env st = IterResult.continued st1 ev) :
    ev.1 = DefaultQueueName := by
  unfold workerIter at h
  split at h
  · simp at h
  · simp at h
  · split at h
    all_goals
      injection h with h1 h2
      rw [← h2]

lemma workerRun_pops_default (handlers : Handlers) :
    ∀ (envs : List IterEnv) (st : SysState),
      ((workerRun handlers envs st).2).all
        (fun ev => ev.1 == DefaultQueueName) = true
  | [], _ => rfl
  | env :: rest, st => by
    rw [workerRun]
    cases hit : workerIter handlers env st with
    | stopped => rfl
    | continued st1 ev =>
      have h1 : ev.1 = DefaultQueueName :=
        workerIter_pop_default handlers env st st1 ev hit
      simp only [List.all_cons, Bool.and_eq_true]
      exact ⟨by simp [h1], workerRun_pops_default handlers rest st1⟩

/-- C2: PushJob always targets the queue named after the job type tag, and
none of the declared job type tags is the default queue name, so a push
never touches the default queue; the worker loop, in turn, pops only from
DefaultQueueName — every pop event in any worker run names the default
queue. Hence a job pushed through PushJob is never popped by the loop from
the queue it was pushed to. -/
theorem pushed_jobs_never_popped_by_worker :
    (∀ jt : JobType, (jobTypeName jt == DefaultQueueName) = false) ∧
    (∀ (st : SysState) (now : Nat) (pushOutcome updOutcome : DbResult)
       (job : QueueJob),
      (QueueService.pushJob st now pushOutcome updOutcome job).2.queues
          DefaultQueueName
        = st.queues DefaultQueueName) ∧
    (∀ (handlers : Handlers) (envs : List IterEnv) (st : SysState),
      ((workerRun handlers envs st).2).all
        (fun ev => ev.1 == DefaultQueueName) = true) := by
  refine ⟨fun jt => by cases jt <;> decide, ?_, workerRun_pops_default⟩
  intro st now pushOutcome updOutcome job
  cases pushOutcome with
  | fail msg => rfl
  | ok =>
    cases updOutcome with
    | fail msg =>
      exact push_lookup_other st.queues now (jobTypeName job.jobType)
        DefaultQueueName job (jobTypeName_ne_default job.jobType)
    | ok =>
      exact push_lookup_other st.queues now (jobTypeName job.jobType)
        DefaultQueueName job (jobTypeName_ne_default job.jobType)

/-- C4: when no handler is registered for the popped job type, processJob
leaves the whole state untouched; when the invoked handler returns an error,
processJob keeps exactly the state the handler produced — the worker adds
no job store write of its own on either path — and the loop stops exactly
on context cancellation or the shutdown signal, never on a handler
failure. -/
theorem worker_drops_failed_jobs_and_continues (handlers : Handlers)
    (job : QueueJob) (st : SysState) (env : IterEnv) :
    (handlers job.jobType = none → processJob handlers job st = st) ∧
    (∀ (h : Handler) (e : String) (st1 : SysState),
      handlers job.jobType = some h →
      h job st = (Except.error e, st1) →
      processJob handlers job st = st1) ∧
    (workerIter handlers env st = IterResult.stopped ↔
      (env.sig = LoopSignal.cancelled ∨ env.sig = LoopSignal.shutdown)) := by
  refine ⟨?_, ?_, ?_⟩
  · intro hnone
    unfold processJob
    rw [hnone]
  · intro h e st1 hsome happ
    unfold processJob
    rw [hsome]
    simp [happ]
  · obtain ⟨sig, upd, now⟩ := env
    cases sig with
    | cancelled => simp [workerIter]
    | shutdown => simp [workerIter]
    | running =>
      simp only [workerIter]
      rcases hp : QueueService.popJob st now upd DefaultQueueName with
        ⟨jobOpt, errOpt, st1⟩
      cases errOpt <;> cases jobOpt <;> simp

/-- A registry with no handler registered for any job type. -/
def noHandlers : Handlers := fun _ => none

/-- A handler that always fails without touching the state. -/
def failingHandler : Handler := fun _ s => (Except.error "collaborator down", s)

/-- A registry mapping every job type to the failing handler. -/
def failingHandlers : Handlers := fun _ => some failingHandler

/-- A transcription queue job as EnqueueTranscriptionJob builds it. -/
def sampleJob : QueueJob :=
  { id := 0, jobID := 1, userID := 42, jobType := JobType.transcription,
    createdAt := 0, payload := GoVal.vstr "a.ogg" }

/-- An empty system state. -/
def sampleState : SysState := { queues := emptyQueues, store := [] }

/-- An iteration in which the loop saw neither cancellation nor shutdown. -/
def runningEnv : IterEnv :=
  { sig := LoopSignal.running, updOutcome := DbResult.ok, now := 0 }

/-- Witness for C4 at a concrete job, state and registry. -/
theorem worker_drops_failed_jobs_and_continues_witness :
    processJob noHandlers sampleJob sampleState = sampleState ∧
    processJob failingHandlers sampleJob sampleState = sampleState ∧
    (workerIter noHandlers runningEnv sampleState = IterResult.stopped ↔
      (runningEnv.sig = LoopSignal.cancelled ∨
        runningEnv.sig = LoopSignal.shutdown)) :=
  ⟨(worker_drops_failed_jobs_and_continues noHandlers sampleJob sampleState
      runningEnv).1 rfl,
   (worker_drops_failed_jobs_and_continues failingHandlers sampleJob
      sampleState runningEnv).2.1 failingHandler "collaborator down"
      sampleState rfl rfl,
   (worker_drops_failed_jobs_and_continues noHandlers sampleJob sampleState
      runningEnv).2.2⟩

lemma create_preserves_invariant (s : JobStore) (now : Nat) (job : Job)
    (hjob : job.completedAt = none)
    (hs : completedAtInvariant s = true) :
    completedAtInvariant (JobRepo.create s now job).1 = true := by
  unfold completedAtInvariant JobRepo.create at *
  simp only [List.all_append, Bool.and_eq_true]
  exact ⟨hs, by simp [jobCompletedAtOk, hjob]⟩

lemma updateStatus_establishes_invariant (s : JobStore) (now : Nat)
    (id : Int) (status : JobStatus) (msg : String)
    (hs : completedAtInvariant s = true) :
    completedAtInvariant (JobRepo.updateStatus s now id status msg) = true := by
  unfold completedAtInvariant JobRepo.updateStatus at *
  rw [List.all_map]
  rw [List.all_eq_true] at hs ⊢
  intro j hj
  by_cases hid : j.id = id
  · simp only [Function.comp_apply, hid, if_pos rfl]
    cases status <;> simp [jobCompletedAtOk]
  · simp only [Function.comp_apply, if_neg hid]
    exact hs j hj

lemma setTranscription_preserves_invariant (s : JobStore) (now : Nat)
    (id : Int) (text : String)
    (hs : completedAtInvariant s = true) :
    completedAtInvariant (JobRepo.setTranscription s now id text) = true := by
  unfold completedAtInvariant JobRepo.setTranscription at *
  rw [List.all_map, List.all_eq_true]
  rw [List.all_eq_true] at hs
  intro j hj
  by_cases hid : j.id = id
  · have := hs j hj
    simpa [jobCompletedAtOk, hid] using this
  · simp only [Function.comp_apply, if_neg hid]
    exact hs j hj

lemma setSummary_preserves_invariant (s : JobStore) (now : Nat)
    (id : Int) (text : String)
    (hs : completedAtInvariant s = true) :
    completedAtInvariant (JobRepo.setSummary s now id text) = true := by
  unfold completedAtInvariant JobRepo.setSummary at *
  rw [List.all_map, List.all_eq_true]
  rw [List.all_eq_true] at hs
  intro j hj
  by_cases hid : j.id = id
  · have := hs j hj
    simpa [jobCompletedAtOk, hid] using this
  · simp only [Function.comp_apply, if_neg hid]
    exact hs j hj

lemma setNotionIDs_preserves_invariant (s : JobStore) (now : Nat)
    (id : Int) (pageID dbID : String)
    (hs : completedAtInvariant s = true) :
    completedAtInvariant (JobRepo.setNotionIDs s now id pageID dbID) = true := by
  unfold completedAtInvariant JobRepo.setNotionIDs at *
  rw [List.all_map, List.all_eq_true]
  rw [List.all_eq_true] at hs
  intro j hj
  by_cases hid : j.id = id
  · have := hs j hj
    simpa [jobCompletedAtOk, hid] using this
  · simp only [Function.comp_apply, if_neg hid]
    exact hs j hj

/-- A job entity handed to Create with a non-null completed_at: Create
forces the status to pending but inserts completed_at verbatim. -/
def strayCompletedJob : Job :=
  { id := 0, userID := 42, status := JobStatus.created,
    audioFilePath := "a.ogg", transcription := "", summary := "",
    notionPageID := "", notionDatabaseID := "", createdAt := 0,
    updatedAt := 0, completedAt := some 0, errorMessage := "" }

/-- Counterexample for C3: the sequence consisting of a single create call
whose input entity carries a non-null completed_at leaves the store with a
pending job whose completed_at is set — Create does not clear the field,
so the invariant fails after this operation sequence. -/
theorem completedAt_invariant_counterexample :
    completedAtInvariant (applyOps [] 0 [StoreOp.create strayCompletedJob])
      = false := by decide

/-- C3 amended: after any sequence of job store operations in which every
create call receives an entity with null completed_at — as every caller in
this repository does — a store satisfying the completed_at invariant still
satisfies it: completed_at is non-null exactly on completed or failed
rows. -/
theorem completedAt_invariant_amended :
    ∀ (ops : List StoreOp) (s : JobStore) (now : Nat),
      (∀ job, StoreOp.create job ∈ ops → job.completedAt = none) →
      completedAtInvariant s = true →
      completedAtInvariant (applyOps s now ops) = true
  | [], _, _, _, hs => hs
  | op :: rest, s, now, hc, hs => by
    rw [applyOps]
    refine completedAt_invariant_amended rest _ _
      (fun job hj => hc job (List.mem_cons_of_mem _ hj)) ?_
    cases op with
    | create job =>
      exact create_preserves_invariant s now job
        (hc job (List.mem_cons_self _ _)) hs
    | updateStatus id status msg =>
      exact updateStatus_establishes_invariant s now id status msg hs
    | setTranscription id text =>
      exact setTranscription_preserves_invariant s now id text hs
    | setSummary id text =>
      exact setSummary_preserves_invariant s now id text hs
    | setNotionIDs id pageID dbID =>
      exact setNotionIDs_preserves_invariant s now id pageID dbID hs

/-- A job entity as the ingestion path builds it: completed_at null. -/
def freshJob : Job :=
  { id := 0, userID := 42, status := JobStatus.created,
    audioFilePath := "a.ogg", transcription := "", summary := "",
    notionPageID := "", notionDatabaseID := "", createdAt := 0,
    updatedAt := 0, completedAt := none, errorMessage := "" }

/-- A concrete operation sequence covering create, both update paths and a
field setter. -/
def c3SampleOps : List StoreOp :=
  [StoreOp.create freshJob,
   StoreOp.setTranscription 1 "hello world",
   StoreOp.updateStatus 1 JobStatus.completed "",
   StoreOp.updateStatus 1 JobStatus.processing ""]

/-- Witness for the amended C3 at a concrete operation sequence. -/
theorem completedAt_invariant_amended_witness :
    completedAtInvariant (applyOps [] 0 c3SampleOps) = true :=
  completedAt_invariant_amended c3SampleOps [] 0
    (by
      intro job hj
      simp only [c3SampleOps, List.mem_cons, List.not_mem_nil, or_false] at hj
      rcases hj with h | h | h | h
      · injection h with h1
        subst h1
        rfl
      · simp at h
      · simp at h
      · simp at h)
    rfl

/-- A sentinel row that any invoked handler of markerHandlers would leave
behind in the store. -/
def markerRow : Job :=
  { id := 99, userID := 99, status := JobStatus.failed,
    audioFilePath := "", transcription := "", summary := "",
    notionPageID := "", notionDatabaseID := "", createdAt := 0,
    updatedAt := 0, completedAt := some 0, errorMessage := "marker" }

/-- A registry whose handlers unconditionally replace the store with the
sentinel row, making any handler invocation observable. -/
def markerHandlers : Handlers :=
  fun _ => some (fun _ s => (Except.ok (), { s with store := [markerRow] }))

/-- An iteration whose processing-status UPDATE fails. -/
def failedUpdEnv : IterEnv :=
  { sig := LoopSignal.running, updOutcome := DbResult.fail "db down", now := 0 }

/-- A state with exactly one item waiting in the default queue. -/
def oneJobState : SysState :=
  { queues := fun n => if n = DefaultQueueName then [sampleJob] else [],
    store := [] }

/-- Counterexample for C6: with one item in the default queue and a failing
processing-status UPDATE, PopJob does return the popped job to its caller,
but the worker loop — its only caller — sees the non-nil error first and
drops it: after the iteration the item is gone from the queue, the store is
untouched, and no handler ran (an invoked handler of markerHandlers would
have left the sentinel row behind). So work on the returned job does not
proceed and the item IS discarded, refuting the claim as stated. -/
theorem popJob_error_worker_drops_counterexample :
    (QueueService.popJob oneJobState 0 (DbResult.fail "db down")
        DefaultQueueName).1 = some (decodeStored sampleJob) ∧
    (iterState (workerIter markerHandlers failedUpdEnv oneJobState)).map
        SysState.store = some [] ∧
    (iterState (workerIter markerHandlers failedUpdEnv oneJobState)).map
        (fun s => s.queues DefaultQueueName) = some [] ∧
    ((iterState (workerIter markerHandlers failedUpdEnv oneJobState)).map
        SysState.store == some [markerRow]) = false := by
  refine ⟨rfl, rfl, rfl, by decide⟩

/-- C6 amended: when PopJob pops an item and the UPDATE of the owning job
to processing fails, the queue job is returned to the caller alongside the
error and the pop is not undone; the Worker Loop however treats the non-nil
error as fatal for the item and discards it without invoking any handler —
the resulting state has the item removed from the default queue and the
store untouched, for every handler registry. -/
theorem popJob_error_job_returned_but_dropped (handlers : Handlers)
    (env : IterEnv) (st : SysState) (msg : String) (job : QueueJob)
    (rest : List QueueJob)
    (hsig : env.sig = LoopSignal.running)
    (hupd : env.updOutcome = DbResult.fail msg)
    (hq : st.queues DefaultQueueName = job :: rest) :
    (QueueService.popJob st env.now env.updOutcome DefaultQueueName).1
        = some (decodeStored job) ∧
    (QueueService.popJob st env.now env.updOutcome DefaultQueueName).2.1
        = some ("failed to update job status: " ++ msg) ∧
    iterPop (workerIter handlers env st)
        = some (DefaultQueueName, some (decodeStored job)) ∧
    (iterState (workerIter handlers env st)).map SysState.store
        = some st.store ∧
    (iterState (workerIter handlers env st)).map
        (fun s => s.queues DefaultQueueName) = some rest := by
  have hpop : QueueRepo.pop st.queues DefaultQueueName =
      (Except.ok (some (decodeStored job)),
       fun n => if n = DefaultQueueName then rest else st.queues n) := by
    rw [QueueRepo.pop, hq]
  have hPopJob : QueueService.popJob st env.now env.updOutcome
      DefaultQueueName =
      (some (decodeStored job),
       some ("failed to update job status: " ++ msg),
       { st with
         queues := fun n => if n = DefaultQueueName then rest
                            else st.queues n }) := by
    rw [QueueService.popJob, hpop, hupd]
  refine ⟨by rw [hPopJob], by rw [hPopJob], ?_, ?_, ?_⟩ <;>
    simp [workerIter, hsig, hPopJob, iterPop, iterState]

/-- Witness for the amended C6 at a concrete state and failing UPDATE. -/
theorem popJob_error_job_returned_but_dropped_witness :
    (QueueService.popJob oneJobState failedUpdEnv.now failedUpdEnv.updOutcome
        DefaultQueueName).1 = some (decodeStored sampleJob) ∧
    (QueueService.popJob oneJobState failedUpdEnv.now failedUpdEnv.updOutcome
        DefaultQueueName).2.1
        = some ("failed to update job status: " ++ "db down") ∧
    iterPop (workerIter failingHandlers failedUpdEnv oneJobState)
        = some (DefaultQueueName, some (decodeStored sampleJob)) ∧
    (iterState (workerIter failingHandlers failedUpdEnv oneJobState)).map
        SysState.store = some oneJobState.store ∧
    (iterState (workerIter failingHandlers failedUpdEnv oneJobState)).map
        (fun s => s.queues DefaultQueueName) = some [] :=
  popJob_error_job_returned_but_dropped failingHandlers failedUpdEnv
    oneJobState "db down" sampleJob [] rfl rfl rfl

lemma updateStatus_keeps_sync_ids (s : JobStore) (now : Nat) (id : Int)
    (status : JobStatus) (msg : String) :
    (JobRepo.updateStatus s now id status msg).map Job.notionPageID
        = s.map Job.notionPageID ∧
    (JobRepo.updateStatus s now id status msg).map Job.notionDatabaseID
        = s.map Job.notionDatabaseID := by
  unfold JobRepo.updateStatus
  rw [List.map_map, List.map_map]
  constructor <;>
    · apply List.map_congr_left
      intro j hj
      by_cases h : j.id = id <;> simp [h]

/-- C7: a note-sync queue job with a well-formed payload whose owning user
was found but has an empty Notion token or an empty Notion database id is
short-circuited: the handler returns nil, never calls the CreatePage
collaborator, performs exactly the UpdateStatus(completed) write, and the
sync identifier columns of every row are left as they were. -/
theorem notion_sync_short_circuit_without_credentials
    (getUser : Int → Except String (Option User))
    (createPage : String → String → String → Except String String)
    (now : Nat) (store : JobStore) (job : QueueJob)
    (payload : List (String × GoVal)) (transcription summary : String)
    (user : User)
    (hmap : assertMap job.payload = some payload)
    (ht : assertString (mapLookup payload "transcription")
            = some transcription)
    (hs : assertString (mapLookup payload "summary") = some summary)
    (hu : getUser job.userID = Except.ok (some user))
    (hcred : user.notionToken = "" ∨ user.notionDatabaseID = "") :
    (processNotionIntegration getUser createPage now store job).result
        = Except.ok () ∧
    (processNotionIntegration getUser createPage now store job).createPageCalled
        = false ∧
    (processNotionIntegration getUser createPage now store job).store
        = JobRepo.updateStatus store now job.jobID JobStatus.completed "" ∧
    ((processNotionIntegration getUser createPage now store job).store).map
        Job.notionPageID = store.map Job.notionPageID ∧
    ((processNotionIntegration getUser createPage now store job).store).map
        Job.notionDatabaseID = store.map Job.notionDatabaseID := by
  have hrun : processNotionIntegration getUser createPage now store job =
      { result := Except.ok (),
        store := JobRepo.updateStatus store now job.jobID
                   JobStatus.completed "",
        createPageCalled := false, userLookup := some job.userID } := by
    unfold processNotionIntegration
    rw [hmap]
    simp only [ht, hs, hu]
    rw [if_pos hcred]
  refine ⟨by rw [hrun], by rw [hrun], by rw [hrun], ?_, ?_⟩ <;>
    · rw [hrun]
      simp [updateStatus_keeps_sync_ids store now job.jobID
        JobStatus.completed ""]

/-- A user without configured Notion credentials. -/
def plainUser : User :=
  { id := 42, telegramID := 42, username := "u", notionToken := "",
    notionDatabaseID := "" }

/-- A note-sync queue job with a well-formed payload. -/
def notionSyncJob : QueueJob :=
  { id := 0, jobID := 1, userID := 42, jobType := JobType.notion,
    createdAt := 2,
    payload := GoVal.vmap
      [("transcription", GoVal.vstr "hello world"),
       ("summary", GoVal.vstr "greeting")] }

/-- Witness for C7 at a concrete credentialless user. -/
theorem notion_sync_short_circuit_witness :
    (processNotionIntegration (fun _ => Except.ok (some plainUser))
        (fun _ _ _ => Except.ok "page-123") 3 [] notionSyncJob).result
        = Except.ok () ∧
    (processNotionIntegration (fun _ => Except.ok (some plainUser))
        (fun _ _ _ => Except.ok "page-123") 3 [] notionSyncJob).createPageCalled
        = false ∧
    (processNotionIntegration (fun _ => Except.ok (some plainUser))
        (fun _ _ _ => Except.ok "page-123") 3 [] notionSyncJob).store
        = JobRepo.updateStatus [] 3 notionSyncJob.jobID JobStatus.completed "" ∧
    ((processNotionIntegration (fun _ => Except.ok (some plainUser))
        (fun _ _ _ => Except.ok "page-123") 3 [] notionSyncJob).store).map
        Job.notionPageID = ([] : JobStore).map Job.notionPageID ∧
    ((processNotionIntegration (fun _ => Except.ok (some plainUser))
        (fun _ _ _ => Except.ok "page-123") 3 [] notionSyncJob).store).map
        Job.notionDatabaseID = ([] : JobStore).map Job.notionDatabaseID :=
  notion_sync_short_circuit_without_credentials
    (fun _ => Except.ok (some plainUser)) (fun _ _ _ => Except.ok "page-123")
    3 [] notionSyncJob
    [("transcription", GoVal.vstr "hello world"),
     ("summary", GoVal.vstr "greeting")]
    "hello world" "greeting" plainUser rfl rfl rfl rfl (Or.inl rfl)

/-- Collaborators that always succeed: transcoding returns the input path
and speech recognition returns "hello world". -/
def okCollaborators : TranscriptionEnv :=
  { processAudio := fun p => Except.ok p,
    transcribe := fun _ => Except.ok "hello world" }

/-- The store after creating the job of the C1 scenario: one pending row
for user 42 with audio path "a.ogg". -/
def c1Store0 : JobStore := (JobRepo.create [] 0 freshJob).1

/-- System state at the start of the C1 scenario. -/
def c1State0 : SysState := { queues := emptyQueues, store := c1Store0 }

/-- State after EnqueueTranscriptionJob(jobID 1, user 42, "a.ogg"). -/
def c1AfterEnqueue : SysState :=
  (QueueService.enqueueTranscriptionJob c1State0 1 DbResult.ok DbResult.ok
    1 42 "a.ogg").2

/-- Popping the enqueued transcription job from the queue it went to. -/
def c1PopResult : Option QueueJob × Option String × SysState :=
  QueueService.popJob c1AfterEnqueue 2 DbResult.ok "transcription"

/-- The queue job the pop returns: the bare-string payload survives the
JSON round trip unchanged. -/
def c1QueueItem : QueueJob :=
  { id := 0, jobID := 1, userID := 42, jobType := JobType.transcription,
    createdAt := 1, payload := GoVal.vstr "a.ogg" }

/-- State after the pop. -/
def c1AfterPop : SysState := c1PopResult.2.2

/-- Running the transcription handler on the popped job with all
collaborators succeeding. -/
def c1Run : TranscriptionRun :=
  processTranscription okCollaborators 3 DbResult.ok DbResult.ok c1AfterPop
    c1QueueItem

/-- C1: evaluation of the code at the failing input of the claim.
EnqueueTranscriptionJob pushes the audio path as a BARE STRING payload,
but ProcessTranscription demands a map payload carrying "audio_path", so on
the popped job — even with every collaborator succeeding — the handler
rejects the payload with "invalid payload type in job": no transcription is
persisted, no row ever reaches status transcribed, and no summarization
queue job is pushed, contradicting the scenario the claim describes. -/
theorem transcription_enqueue_handler_payload_mismatch :
    c1PopResult.1 = some c1QueueItem ∧
    decodeStored c1QueueItem = c1QueueItem ∧
    c1Run.result = Except.error (GoErr.err "invalid payload type in job") ∧
    c1Run.state.store = c1AfterPop.store ∧
    (c1Run.state.store).all
        (fun j => !(j.status == JobStatus.transcribed)) = true ∧
    c1Run.state.queues "summarization" = [] := by
  exact ⟨rfl, rfl, rfl, rfl, rfl, rfl⟩

lemma assertInt64_roundTrip (v : GoVal) :
    assertInt64 (goJsonRoundTrip v) = none := by
  cases v <;> rfl

lemma assertInt64_mapLookup_roundTrip (k : String) :
    ∀ es : List (String × GoVal),
      assertInt64 (mapLookup (goJsonRoundTripEntries es) k) = none
  | [] => rfl
  | (k1, v) :: rest => by
    rw [goJsonRoundTripEntries, mapLookup]
    by_cases h : k1 = k
    · rw [if_pos h]
      exact assertInt64_roundTrip v
    · rw [if_neg h]
      exact assertInt64_mapLookup_roundTrip k rest

lemma notion_userLookup_is_job_userID
    (getUser : Int → Except String (Option User))
    (createPage : String → String → String → Except String String)
    (now : Nat) (store : JobStore) (job : QueueJob) :
    (processNotionIntegration getUser createPage now store job).userLookup
        = none ∨
    (processNotionIntegration getUser createPage now store job).userLookup
        = some job.userID := by
  unfold processNotionIntegration
  rcases hm : assertMap job.payload with _ | payload
  · simp
  · simp only []
    rcases ht : assertString (mapLookup payload "transcription") with _ | t
    · simp
    · simp only []
      rcases hs : assertString (mapLookup payload "summary") with _ | s
      · simp
      · simp only []
        rcases hu : getUser job.userID with e | u
        · simp
        · rcases u with _ | user
          · simp
          · simp only []
            split
            · simp
            · rcases hc : createPage user.notionDatabaseID
                ("Транскрипция от " ++ toString now)
                ("## Суммаризация\n\n" ++ s ++
                 "\n\n## Полная транскрипция\n\n" ++ t) with e | p
              · simp [hc]
              · simp [hc]

/-- C10: whenever the transcription handler reaches the hand-off — a map
payload that came through the JSON decoding of the queue (its entries are
decoded interface values), an "audio_path" string, and both collaborators
succeeding — the summarization queue job it pushes carries UserID 0: the
struct literal leaves the field unset, and the int64 comma-ok assertion on
the decoded "user_id" entry yields the zero value because JSON numbers
decode as float64 and a string payload has no such key at all. The
downstream note-sync handler looks the user up by the UserID field of the
job it receives, hence by 0 for such a job. -/
theorem summarization_job_carries_userid_zero (env : TranscriptionEnv)
    (now : Nat) (updOutcome : DbResult) (st : SysState) (job : QueueJob)
    (es : List (String × GoVal))
    (audioPath processedPath transcription : String)
    (hpayload : job.payload = GoVal.vmap (goJsonRoundTripEntries es))
    (haudio : assertString
        (mapLookup (goJsonRoundTripEntries es) "audio_path")
        = some audioPath)
    (hproc : env.processAudio audioPath = Except.ok processedPath)
    (htr : env.transcribe processedPath = Except.ok transcription) :
    ((processTranscription env now DbResult.ok updOutcome st job).state.queues
        "summarization"
      = st.queues "summarization" ++
        [{ id := 0, jobID := job.jobID, userID := 0,
           jobType := JobType.summarization, createdAt := now,
           payload := GoVal.vmap
             [("transcription", GoVal.vstr transcription),
              ("user_id", GoVal.vint64 0)] }]) ∧
    (∀ (getUser : Int → Except String (Option User))
       (createPage : String → String → String → Except String String)
       (now2 : Nat) (store2 : JobStore) (job2 : QueueJob) (uid : Int),
      job2.userID = 0 →
      (processNotionIntegration getUser createPage now2 store2 job2).userLookup
          = some uid →
      uid = 0) := by
  constructor
  · unfold processTranscription
    rw [hpayload]
    simp only [assertMap, haudio, hproc, htr,
      assertInt64_mapLookup_roundTrip, Option.getD_none]
    cases updOutcome with
    | ok =>
      simp only [QueueService.pushJob]
      rw [show jobTypeName JobType.summarization = "summarization" from rfl,
        push_lookup_self]
      rfl
    | fail msg =>
      simp only [QueueService.pushJob]
      rw [show jobTypeName JobType.summarization = "summarization" from rfl,
        push_lookup_self]
      rfl
  · intro getUser createPage now2 store2 job2 uid h0 hlook
    rcases notion_userLookup_is_job_userID getUser createPage now2 store2
        job2 with h | h
    · rw [h] at hlook
      exact absurd hlook (by simp)
    · rw [h, h0] at hlook
      injection hlook with h1
      exact h1.symm

/-- The payload of the C10 witness before serialization: it even carries
user_id 42 as an int64; the JSON round trip turns it into a float64. -/
def c10Entries : List (String × GoVal) :=
  [("audio_path", GoVal.vstr "a.ogg"), ("user_id", GoVal.vint64 42)]

/-- A transcription queue job as it comes off the queue: payload decoded
from JSON. -/
def c10DecodedJob : QueueJob :=
  { id := 0, jobID := 1, userID := 42, jobType := JobType.transcription,
    createdAt := 1,
    payload := GoVal.vmap (goJsonRoundTripEntries c10Entries) }

/-- Witness for C10: running the handler on the decoded job pushes a
summarization queue job with UserID 0 and payload user_id 0, although the
original payload carried user_id 42. -/
theorem summarization_job_carries_userid_zero_witness :
    (processTranscription okCollaborators 4 DbResult.ok DbResult.ok
        sampleState c10DecodedJob).state.queues "summarization"
      = sampleState.queues "summarization" ++
        [{ id := 0, jobID := 1, userID := 0,
           jobType := JobType.summarization, createdAt := 4,
           payload := GoVal.vmap
             [("transcription", GoVal.vstr "hello world"),
              ("user_id", GoVal.vint64 0)] }] :=
  (summarization_job_carries_userid_zero okCollaborators 4 DbResult.ok
    sampleState c10DecodedJob c10Entries "a.ogg" "a.ogg" "hello world"
    rfl rfl rfl rfl).1

end Obsidian
